import Mathlib

/-!
Verification of the Keplerian-elements-to-Cartesian conversion in
src/k2c-test.py and of the catalog-ingestion script
src/college-coursework/planets-api.py.

Floating-point numbers are modelled as real numbers.  Python runtime
failures are modelled explicitly: an expression that raises an exception
is embedded as an Except value, with a constructor per Python exception
class that the code can raise (NameError for an unresolved identifier,
ValueError for a math domain error, ZeroDivisionError for division by
zero).
-/

/-- Python exceptions that the embedded code can raise. -/
inductive PyError
  | nameError (missing : String)
  | valueError
  | zeroDivisionError
deriving DecidableEq

/-- Python float division: x / y raises ZeroDivisionError when y is zero. -/
noncomputable def pyDiv (x y : ℝ) : Except PyError ℝ :=
  if y = 0 then .error .zeroDivisionError else .ok (x / y)

/-- Python math.sqrt: raises ValueError (math domain error) on negative input. -/
noncomputable def pySqrt (x : ℝ) : Except PyError ℝ :=
  if x < 0 then .error .valueError else .ok (Real.sqrt x)

/-- Python math.atan2 y x: the angle of the point (x, y) in the range
from -pi exclusive to pi inclusive, never raising.  Modelled as the
complex argument of x + y*I. -/
noncomputable def pyAtan2 (y x : ℝ) : ℝ :=
  Complex.arg ⟨x, y⟩

/-- Mean-anomaly stage of keplerian_to_cartesian, lines 36-43 of
src/k2c-test.py: if t == t0 the epoch anomaly M0 is returned unchanged,
otherwise Mt = M0 + dt * sqrt(mu / a^3) with dt = 86400 * (t - t0). -/
noncomputable def computeMt (a t0 t M0 mu : ℝ) : Except PyError ℝ :=
  if t = t0 then .ok M0
  else
    (pyDiv mu (a ^ 3)).bind fun q =>
      (pySqrt q).map fun n => M0 + (86400 * (t - t0)) * n

/-- Residual of Kepler's equation, the variable F of src/k2c-test.py
lines 50 and 55: F = E - e * sin E - Mt. -/
noncomputable def F_val (e Mt E : ℝ) : ℝ :=
  E - e * Real.sin E - Mt

/-- One pass of the while-loop body at lines 53-57 of src/k2c-test.py.
The state is the pair (E, F); the division raises ZeroDivisionError when
the denominator 1 - e * cos E is zero, as Python float division does. -/
noncomputable def loopStep (e Mt : ℝ) (s : ℝ × ℝ) : Except PyError (ℝ × ℝ) :=
  if 1 - e * Real.cos s.1 = 0 then .error .zeroDivisionError
  else
    let E := s.1 - s.2 / (1 - e * Real.cos s.1)
    .ok (E, F_val e Mt E)

/-- The while-loop at lines 53-57 of src/k2c-test.py run for n iterations
from a given (E, F) state. -/
noncomputable def solveLoop (e Mt : ℝ) : ℕ → ℝ × ℝ → Except PyError (ℝ × ℝ)
  | 0, s => .ok s
  | n + 1, s => (loopStep e Mt s).bind (solveLoop e Mt n)

/-- The Kepler-equation solver of src/k2c-test.py lines 45-57: initial
state E = Mt with F = E - e * sin E - Mt, then 30 loop iterations
(solveIterations = 30); the returned value is the final E. -/
noncomputable def solveKepler (e Mt : ℝ) : Except PyError ℝ :=
  (solveLoop e Mt 30 (Mt, F_val e Mt Mt)).map Prod.fst

/-- Newton-Raphson update on E alone, as the spec states it:
E - (E - e * sin E - Mt) / (1 - e * cos E), with total real division.
This is the spec's phrasing of the update; the code threads the residual
F through the loop state instead, and the two are compared in the
theorems below. -/
noncomputable def newtonUpdate (e Mt E : ℝ) : ℝ :=
  E - (E - e * Real.sin E - Mt) / (1 - e * Real.cos E)

/-- True-anomaly expression at lines 60-63 of src/k2c-test.py:
nu = 2 * atan2(sqrt(1 + e) * sin(E / 2), sqrt(1 - e) * cos(E / 2)). -/
noncomputable def trueAnomaly (e E : ℝ) : ℝ :=
  2 * pyAtan2 (Real.sqrt (1 + e) * Real.sin (E / 2))
    (Real.sqrt (1 - e) * Real.cos (E / 2))

/-- A 3-component spatial vector. -/
structure Vec3 where
  x : ℝ
  y : ℝ
  z : ℝ

/-- The function keplerian_to_cartesian of src/k2c-test.py.  Arguments in
source order: a, e, w, omega, i, t0, t, M0, mu.  The inclination
parameter i is rebound to the loop counter at line 48 before it is ever
read, so the body makes no use of the argument; the embedding therefore
takes it and ignores it.  Control flow: the mean-anomaly stage
(lines 36-43), the Newton-Raphson loop (lines 45-57), the two square
roots inside the true-anomaly expression (lines 60-63, evaluated left
argument first), the radius rc (line 66), and then line 71, whose
orbital-plane position expression reads the unresolved identifier
maths, raising NameError before anything is returned.  Lines 73-94 are
unreachable; their rotation expressions are embedded separately below as
rotCode and rotCodeVel. -/
noncomputable def keplerian_to_cartesian (a e w omega i t0 t M0 mu : ℝ) :
    Except PyError (Vec3 × Vec3) :=
  (computeMt a t0 t M0 mu).bind fun Mt =>
    (solveLoop e Mt 30 (Mt, F_val e Mt Mt)).bind fun EF =>
      (pySqrt (1 + e)).bind fun s1 =>
        (pySqrt (1 - e)).bind fun s2 =>
          let nu := 2 * pyAtan2 (s1 * Real.sin (EF.1 / 2)) (s2 * Real.cos (EF.1 / 2))
          let rc := a * (1 - e * Real.cos EF.1)
          Except.error (.nameError "maths")

/-- Rotation applied to the orbital-plane position o at lines 80-86 of
src/k2c-test.py, as a map of the angles w, omega, i and the vector; the
third component of the input vector is never read, matching the code
reading only o[0] and o[1]. -/
noncomputable def rotCode (w omega i : ℝ) (v : Vec3) : Vec3 :=
  ⟨v.x * (Real.cos w * Real.cos omega - Real.sin w * Real.cos i * Real.sin omega)
      - v.y * (Real.sin w * Real.cos omega + Real.cos w * Real.cos i * Real.sin omega),
    v.x * (Real.cos w * Real.sin omega + Real.sin w * Real.cos i * Real.cos omega)
      - v.y * (Real.cos w * Real.cos i * Real.cos omega - Real.sin w * Real.sin omega),
    v.x * (Real.sin w * Real.sin i) + v.y * (Real.cos w * Real.sin i)⟩

/-- Rotation applied to the orbital-plane velocity odot at lines 88-94 of
src/k2c-test.py, written in the source as a second copy of the same
coefficient expressions. -/
noncomputable def rotCodeVel (w omega i : ℝ) (v : Vec3) : Vec3 :=
  ⟨v.x * (Real.cos w * Real.cos omega - Real.sin w * Real.cos i * Real.sin omega)
      - v.y * (Real.sin w * Real.cos omega + Real.cos w * Real.cos i * Real.sin omega),
    v.x * (Real.cos w * Real.sin omega + Real.sin w * Real.cos i * Real.cos omega)
      - v.y * (Real.cos w * Real.cos i * Real.cos omega - Real.sin w * Real.sin omega),
    v.x * (Real.sin w * Real.sin i) + v.y * (Real.cos w * Real.sin i)⟩

/-- Modelled from the spec: the standard 3-1-3 Euler rotation with
argument of periapsis w, inclination i and longitude of ascending node
omega, applied to a vector lying in the orbital plane (the z component
of the input is not used, matching the code acting on o[0], o[1]).
This is the rotation of the reference memorandum the code cites; it
differs from rotCode only in the sign of the second coefficient of the
y component. -/
noncomputable def rotSpec313 (w omega i : ℝ) (v : Vec3) : Vec3 :=
  ⟨v.x * (Real.cos w * Real.cos omega - Real.sin w * Real.cos i * Real.sin omega)
      - v.y * (Real.sin w * Real.cos omega + Real.cos w * Real.cos i * Real.sin omega),
    v.x * (Real.cos w * Real.sin omega + Real.sin w * Real.cos i * Real.cos omega)
      + v.y * (Real.cos w * Real.cos i * Real.cos omega - Real.sin w * Real.sin omega),
    v.x * (Real.sin w * Real.sin i) + v.y * (Real.cos w * Real.sin i)⟩

/-- Modelled from the spec: the error taxonomy of the error-handling
design section (InvalidSemiMajorAxis, InvalidEccentricity,
InvalidGravitationalParameter); no such errors exist in the code. -/
inductive SpecDomainError
  | invalidSemiMajorAxis
  | invalidEccentricity
  | invalidGravitationalParameter
deriving DecidableEq

/-- Modelled from the spec: the fail-fast validation the error-handling
design section describes, checking a, then e, then mu, before any
computation.  The code under src contains no such validation; this
definition exists only to state what the spec requires so that the
code's behaviour can be compared against it. -/
noncomputable def specValidate (a e mu : ℝ) : Option SpecDomainError :=
  if a ≤ 0 then some .invalidSemiMajorAxis
  else if e < 0 ∨ 1 ≤ e then some .invalidEccentricity
  else if mu ≤ 0 then some .invalidGravitationalParameter
  else none

/- ### Helper lemmas about the solver loop -/

/-- For eccentricity in the elliptical range the Newton denominator is
positive, whatever E is. -/
lemma newton_denom_pos (e E : ℝ) (he0 : 0 ≤ e) (he1 : e < 1) :
    0 < 1 - e * Real.cos E := by
  have h1 : e * Real.cos E ≤ e * 1 :=
    mul_le_mul_of_nonneg_left (Real.cos_le_one E) he0
  linarith

/-- In the elliptical range every loop iteration succeeds, and threading
the residual F through the state agrees with iterating the single-step
Newton update of the spec, provided the stored residual is the residual
of the stored E. -/
lemma solveLoop_eq_iterate (e Mt : ℝ) (he0 : 0 ≤ e) (he1 : e < 1) :
    ∀ (n : ℕ) (E : ℝ),
      solveLoop e Mt n (E, F_val e Mt E) =
        .ok ((newtonUpdate e Mt)^[n] E, F_val e Mt ((newtonUpdate e Mt)^[n] E)) := by
  intro n
  induction n with
  | zero => intro E; simp [solveLoop]
  | succ n ih =>
    intro E
    have hden := newton_denom_pos e E he0 he1
    have hstep : loopStep e Mt (E, F_val e Mt E) =
        .ok (newtonUpdate e Mt E, F_val e Mt (newtonUpdate e Mt E)) := by
      simp only [loopStep, if_neg (ne_of_gt hden)]
      rfl
    simp only [solveLoop, hstep, Except.bind, ih (newtonUpdate e Mt E),
      Function.iterate_succ_apply]

/-- In the elliptical range the solver returns the 30-fold iterate of the
Newton update started at the initial guess Mt. -/
lemma solveKepler_ok (e Mt : ℝ) (he0 : 0 ≤ e) (he1 : e < 1) :
    solveKepler e Mt = .ok ((newtonUpdate e Mt)^[30] Mt) := by
  simp [solveKepler, solveLoop_eq_iterate e Mt he0 he1 30 Mt, Except.map]

/-- Whenever the mean-anomaly stage succeeds and the eccentricity is in
the elliptical range, keplerian_to_cartesian raises NameError on the
unresolved identifier maths at line 71. -/
lemma k2c_nameError (a e w omega i t0 t M0 mu Mt : ℝ)
    (he0 : 0 ≤ e) (he1 : e < 1)
    (hMt : computeMt a t0 t M0 mu = .ok Mt) :
    keplerian_to_cartesian a e w omega i t0 t M0 mu =
      .error (.nameError "maths") := by
  have hloop := solveLoop_eq_iterate e Mt he0 he1 30 Mt
  have hs1 : pySqrt (1 + e) = .ok (Real.sqrt (1 + e)) := by
    simp [pySqrt, not_lt.2 (by linarith : (0:ℝ) ≤ 1 + e)]
  have hs2 : pySqrt (1 - e) = .ok (Real.sqrt (1 - e)) := by
    simp [pySqrt, not_lt.2 (by linarith : (0:ℝ) ≤ 1 - e)]
  simp [keplerian_to_cartesian, hMt, hloop, hs1, hs2, Except.bind]

/-- With t equal to t0 the mean-anomaly stage returns M0 unchanged. -/
lemma computeMt_of_eq (a t0 M0 mu : ℝ) :
    computeMt a t0 t0 M0 mu = .ok M0 := by
  simp [computeMt]

/-- With t different from t0, positive semi-major axis and nonnegative
gravitational parameter, the mean-anomaly stage succeeds with the
propagation formula. -/
lemma computeMt_of_ne (a t0 t M0 mu : ℝ) (ht : t ≠ t0)
    (ha : 0 < a) (hmu : 0 ≤ mu) :
    computeMt a t0 t M0 mu =
      .ok (M0 + (86400 * (t - t0)) * Real.sqrt (mu / a ^ 3)) := by
  have ha3 : (0:ℝ) < a ^ 3 := by positivity
  have hq : 0 ≤ mu / a ^ 3 := div_nonneg hmu (le_of_lt ha3)
  simp [computeMt, ht, pyDiv, ne_of_gt ha3, pySqrt, not_lt.2 hq, Except.bind,
    Except.map]

/- ### Claim theorems for the conversion routine -/

/-- C1: the spec claims the orbital-plane position evaluation succeeds
and the call returns a result.  The code is wrong: line 71 reads the
unresolved identifier maths for the sine of the true anomaly, so every
call with valid inputs (a > 0, 0 <= e < 1, mu > 0) raises NameError and
returns nothing. -/
theorem C1_valid_call_raises_nameError (a e w omega i t0 t M0 mu : ℝ)
    (ha : 0 < a) (he0 : 0 ≤ e) (he1 : e < 1) (hmu : 0 < mu) :
    keplerian_to_cartesian a e w omega i t0 t M0 mu =
      .error (.nameError "maths") := by
  by_cases ht : t = t0
  · subst ht
    exact k2c_nameError a e w omega i t t M0 mu M0 he0 he1
      (computeMt_of_eq a t M0 mu)
  · exact k2c_nameError a e w omega i t0 t M0 mu
      (M0 + (86400 * (t - t0)) * Real.sqrt (mu / a ^ 3)) he0 he1
      (computeMt_of_ne a t0 t M0 mu ht ha hmu.le)

/-- Witness for C1 at a concrete valid input. -/
theorem C1_witness :
    ((0:ℝ) < 1 ∧ (0:ℝ) ≤ 0 ∧ (0:ℝ) < 1) ∧
      keplerian_to_cartesian 1 0 0 0 0 0 0 0 1 = .error (.nameError "maths") :=
  ⟨⟨one_pos, le_rfl, one_pos⟩,
    C1_valid_call_raises_nameError 1 0 0 0 0 0 0 0 1 one_pos le_rfl one_pos one_pos⟩

/-- C2: the returned value of keplerian_to_cartesian, error or not, does
not depend on the inclination argument i: the Newton-Raphson loop
rebinds i as its iteration counter before the parameter is ever read. -/
theorem C2_result_independent_of_inclination
    (a e w omega t0 t M0 mu i i' : ℝ) :
    keplerian_to_cartesian a e w omega i t0 t M0 mu =
      keplerian_to_cartesian a e w omega i' t0 t M0 mu := rfl

/-- C3 counterexample: the rotation written at lines 80-86 is not the
standard 3-1-3 Euler rotation; already at w = omega = i = 0, where the
standard rotation is the identity on the orbital plane, the code maps
(0, 1, 0) to (0, -1, 0). -/
theorem C3_counterexample :
    rotCode 0 0 0 ⟨0, 1, 0⟩ ≠ rotSpec313 0 0 0 ⟨0, 1, 0⟩ := by
  intro h
  have hy := congrArg Vec3.y h
  simp [rotCode, rotSpec313] at hy
  norm_num at hy

/-- C3 amended: the transform stage applies the same fixed linear map to
the position and to the velocity vector, but that map is not the
standard 3-1-3 rotation: its y component subtracts twice the term
v.y * (cos w * cos i * cos omega - sin w * sin omega) from the standard
value (a sign flip of one coefficient); and the stage is unreachable:
every elliptical call with t = t0 fails with NameError before any
position is produced, so no radius identity holds of a returned
position. -/
theorem C3_amended :
    (∀ w omega i v, rotCodeVel w omega i v = rotCode w omega i v) ∧
    (∀ w omega i v, rotCode w omega i v =
      ⟨(rotSpec313 w omega i v).x,
        (rotSpec313 w omega i v).y -
          2 * v.y * (Real.cos w * Real.cos i * Real.cos omega -
            Real.sin w * Real.sin omega),
        (rotSpec313 w omega i v).z⟩) ∧
    (∀ a w omega i t0 M0 mu,
      keplerian_to_cartesian a 0 w omega i t0 t0 M0 mu =
        .error (.nameError "maths")) := by
  refine ⟨fun w omega i v => rfl, fun w omega i v => ?_, fun a w omega i t0 M0 mu => ?_⟩
  · simp only [rotCode, rotSpec313, Vec3.mk.injEq]
    refine ⟨trivial, by ring, trivial⟩
  · exact k2c_nameError a 0 w omega i t0 t0 M0 mu M0 le_rfl one_pos
      (computeMt_of_eq a t0 M0 mu)

/-- C4 counterexample: with a = -1 (and t = t0, e = 0, mu = 1) the spec
demands the specific domain error InvalidSemiMajorAxis, rejected before
any iterative computation; the code performs no validation and the call
instead runs the full Newton loop and fails with NameError at the
orbital-plane expression. -/
theorem C4_counterexample :
    specValidate (-1) 0 1 = some .invalidSemiMajorAxis ∧
      keplerian_to_cartesian (-1) 0 0 0 0 0 0 0 1 =
        .error (.nameError "maths") := by
  constructor
  · norm_num [specValidate]
  · exact k2c_nameError (-1) 0 0 0 0 0 0 0 1 0 le_rfl one_pos
      (computeMt_of_eq (-1) 0 0 1)

/-- C4 amended: the code validates nothing.  Invalid a and mu with
t = t0 are never inspected and the call fails only with the NameError
after the solver has run; with t different from t0 a negative mu / a^3
surfaces as a ValueError from sqrt while computing the mean motion, not
as a pre-computation domain error; and no call ever returns a
StateVector, partial or otherwise: every call fails with some
exception. -/
theorem C4_amended :
    keplerian_to_cartesian (-1) 0 0 0 0 0 0 0 (-1) =
        .error (.nameError "maths") ∧
      keplerian_to_cartesian (-1) 0 0 0 0 0 1 0 1 = .error .valueError ∧
      ∀ a e w omega i t0 t M0 mu, ∃ er,
        keplerian_to_cartesian a e w omega i t0 t M0 mu = .error er := by
  refine ⟨?_, ?_, ?_⟩
  · exact k2c_nameError (-1) 0 0 0 0 0 0 0 (-1) 0 le_rfl one_pos
      (computeMt_of_eq (-1) 0 0 (-1))
  · have hc : computeMt (-1) 0 1 0 1 = .error .valueError := by
      norm_num [computeMt, pyDiv, pySqrt, Except.bind, Except.map]
    simp [keplerian_to_cartesian, hc, Except.bind]
  · intro a e w omega i t0 t M0 mu
    unfold keplerian_to_cartesian
    cases hMt : computeMt a t0 t M0 mu with
    | error er => exact ⟨er, rfl⟩
    | ok Mt =>
      simp only [Except.bind]
      cases hl : solveLoop e Mt 30 (Mt, F_val e Mt Mt) with
      | error er => exact ⟨er, rfl⟩
      | ok EF =>
        simp only [Except.bind]
        cases hs1 : pySqrt (1 + e) with
        | error er => exact ⟨er, rfl⟩
        | ok s1 =>
          simp only [Except.bind]
          cases hs2 : pySqrt (1 - e) with
          | error er => exact ⟨er, rfl⟩
          | ok s2 => exact ⟨.nameError "maths", rfl⟩

/-- C5 counterexample: the claim quantifies over every input (Mt, e),
but at e = 1, Mt = 0 the very first Newton update divides by
1 - e * cos(Mt) = 0 and the loop raises ZeroDivisionError instead of
performing 30 updates, so the iteration count is not independent of the
input. -/
theorem C5_counterexample : solveKepler 1 0 = .error .zeroDivisionError := by
  have h30 : (30 : ℕ) = 29 + 1 := by norm_num
  unfold solveKepler
  rw [h30]
  simp [solveLoop, loopStep, Real.cos_zero, Except.bind, Except.map]

/-- C5 amended: for eccentricities in the elliptical range 0 <= e < 1
the solver starts from the initial guess Mt and performs exactly 30
Newton-Raphson updates with no convergence check or early exit: its
result is precisely the 30-fold iterate of the update
E - (E - e * sin E - Mt) / (1 - e * cos E) applied to Mt. -/
theorem C5_fixed_thirty_iterations (e Mt : ℝ) (he0 : 0 ≤ e) (he1 : e < 1) :
    solveKepler e Mt = .ok ((newtonUpdate e Mt)^[30] Mt) :=
  solveKepler_ok e Mt he0 he1

/-- Witness for C5 at e = 0, Mt = 0. -/
theorem C5_witness :
    ((0:ℝ) ≤ 0 ∧ (0:ℝ) < 1) ∧
      solveKepler 0 0 = .ok ((newtonUpdate 0 0)^[30] 0) :=
  ⟨⟨le_rfl, one_pos⟩, C5_fixed_thirty_iterations 0 0 le_rfl one_pos⟩

/-- C6: with t different from t0 and valid a > 0, mu > 0, the
mean-anomaly stage returns Mt = M0 + dt * n with dt = 86400 * (t - t0)
and n = sqrt(mu / a^3), with no wrapping applied to the result. -/
theorem C6_mean_anomaly_propagation (a t0 t M0 mu : ℝ) (ht : t ≠ t0)
    (ha : 0 < a) (hmu : 0 < mu) :
    computeMt a t0 t M0 mu =
      .ok (M0 + (86400 * (t - t0)) * Real.sqrt (mu / a ^ 3)) :=
  computeMt_of_ne a t0 t M0 mu ht ha hmu.le

/-- Witness for C6: one day of propagation with a = 1, mu = 1 yields
86400 radians, far outside [0, 2 pi), confirming no wrap is applied. -/
theorem C6_witness :
    ((1:ℝ) ≠ 0 ∧ (0:ℝ) < 1 ∧ (0:ℝ) < 1) ∧
      computeMt 1 0 1 0 1 =
        .ok (0 + (86400 * ((1:ℝ) - 0)) * Real.sqrt (1 / 1 ^ 3)) :=
  ⟨⟨one_ne_zero, one_pos, one_pos⟩,
    C6_mean_anomaly_propagation 1 0 1 0 1 one_ne_zero one_pos one_pos⟩

/-- C7: with t equal to t0 the mean-anomaly stage short-circuits and
returns M0 itself, with no arithmetic applied. -/
theorem C7_epoch_short_circuit (a t0 t M0 mu : ℝ) (ht : t = t0) :
    computeMt a t0 t M0 mu = .ok M0 := by
  subst ht
  exact computeMt_of_eq a t M0 mu

/-- Witness for C7 at a concrete input. -/
theorem C7_witness :
    (5:ℝ) = 5 ∧ computeMt 3 5 5 7 2 = .ok 7 :=
  ⟨rfl, C7_epoch_short_circuit 3 5 5 7 2 rfl⟩

/-- The atan2 of (sin theta, cos theta) recovers theta exactly on the
principal range from -pi exclusive to pi inclusive. -/
lemma pyAtan2_cos_sin (θ : ℝ) (hθ : θ ∈ Set.Ioc (-Real.pi) Real.pi) :
    pyAtan2 (Real.sin θ) (Real.cos θ) = θ := by
  have hmk : (⟨Real.cos θ, Real.sin θ⟩ : ℂ) =
      Complex.cos (θ : ℂ) + Complex.sin (θ : ℂ) * Complex.I := by
    rw [Complex.mk_eq_add_mul_I, Complex.ofReal_cos, Complex.ofReal_sin]
  rw [pyAtan2, hmk, Complex.arg_cos_add_sin_mul_I hθ]

/-- C8 counterexample: at e = 0 the code's true anomaly is not equal to
the mean anomaly for arbitrary Mt (at Mt = 4 pi the atan2 construction
collapses it to 0), and even at a benign circular input the call
returns no position at all, raising NameError, so no returned position
has norm a. -/
theorem C8_counterexample :
    trueAnomaly 0 (4 * Real.pi) ≠ 4 * Real.pi ∧
      keplerian_to_cartesian 2 0 0 0 0 0 0 0 1 =
        .error (.nameError "maths") := by
  constructor
  · have hhalf : 4 * Real.pi / 2 = 2 * Real.pi := by ring
    have h4 : trueAnomaly 0 (4 * Real.pi) = 0 := by
      simp only [trueAnomaly, add_zero, sub_zero, Real.sqrt_one, one_mul,
        hhalf, Real.sin_two_pi, Real.cos_two_pi]
      have hone : (⟨1, 0⟩ : ℂ) = 1 := by apply Complex.ext <;> simp
      rw [pyAtan2, hone, Complex.arg_one, mul_zero]
    rw [h4]
    exact ne_of_lt (by positivity)
  · exact k2c_nameError 2 0 0 0 0 0 0 0 1 0 le_rfl one_pos
      (computeMt_of_eq 2 0 0 1)

/-- C8 amended: for e = 0 the eccentric anomaly remains Mt through every
solver iteration (the loop state never moves from its initial value),
the true anomaly equals Mt whenever Mt lies in the principal range from
-2 pi exclusive to 2 pi inclusive (in general it is only Mt reduced to
that range), and the call never returns a position: every circular call
with t = t0 fails with NameError at the orbital-plane expression, so
the norm property holds of no returned value. -/
theorem C8_circular_orbit (Mt : ℝ)
    (h1 : -(2 * Real.pi) < Mt) (h2 : Mt ≤ 2 * Real.pi) :
    (∀ k, solveLoop 0 Mt k (Mt, F_val 0 Mt Mt) = .ok (Mt, F_val 0 Mt Mt)) ∧
      trueAnomaly 0 Mt = Mt ∧
      ∀ a w omega i t0 M0 mu,
        keplerian_to_cartesian a 0 w omega i t0 t0 M0 mu =
          .error (.nameError "maths") := by
  refine ⟨fun k => ?_, ?_, fun a w omega i t0 M0 mu => ?_⟩
  · have hfix : newtonUpdate 0 Mt Mt = Mt := by simp [newtonUpdate]
    have h := solveLoop_eq_iterate 0 Mt le_rfl one_pos k Mt
    rwa [Function.iterate_fixed hfix k] at h
  · have hθ : Mt / 2 ∈ Set.Ioc (-Real.pi) Real.pi :=
      ⟨by linarith, by linarith⟩
    simp only [trueAnomaly, add_zero, sub_zero, Real.sqrt_one, one_mul]
    rw [pyAtan2_cos_sin (Mt / 2) hθ]
    ring
  · exact k2c_nameError a 0 w omega i t0 t0 M0 mu M0 le_rfl one_pos
      (computeMt_of_eq a t0 M0 mu)

/-- Witness for C8 at Mt = 0. -/
theorem C8_witness :
    (-(2 * Real.pi) < 0 ∧ (0:ℝ) ≤ 2 * Real.pi) ∧ trueAnomaly 0 0 = 0 :=
  ⟨⟨by have := Real.pi_pos; linarith, by have := Real.pi_pos; linarith⟩,
    (C8_circular_orbit 0 (by have := Real.pi_pos; linarith)
      (by have := Real.pi_pos; linarith)).2.1⟩

/-- C9: the concrete scenario of the spec (a = 7000000, e = 0, all
angles 0, t = t0 = 0, M0 = 0, mu = 3.986004418e14) is claimed to return
position (7000000, 0, 0) and velocity (0, sqrt(mu/a), 0); the code is
wrong: the call raises NameError on the unresolved identifier maths and
returns nothing. -/
theorem C9_concrete_scenario :
    keplerian_to_cartesian 7000000 0 0 0 0 0 0 0 398600441800000 =
      .error (.nameError "maths") :=
  k2c_nameError 7000000 0 0 0 0 0 0 0 398600441800000 0 le_rfl one_pos
    (computeMt_of_eq 7000000 0 0 398600441800000)

/- ### Catalog ingestion, src/college-coursework/planets-api.py -/

/-- Python dict update keyed by strings, combining an existing value
with the incoming one: keys present in d keep their position and get the
combined value, keys only in u are appended in order.  With combine
projecting to the new value this is exactly dict.update as used at
line 69 of planets-api.py; with combine itself a dict update it is the
whole merge loop at lines 64-69. -/
def updateWith {V : Type} (combine : V → V → V)
    (d u : List (String × V)) : List (String × V) :=
  d.map (fun kv =>
    match u.lookup kv.1 with
    | some v => (kv.1, combine kv.2 v)
    | none => kv)
  ++ u.filter (fun kv => (d.lookup kv.1).isNone)

/-- dict.update of a stored body with a freshly fetched body, line 69 of
planets-api.py: every fetched field value overwrites, fields absent from
the fetch are kept. -/
def dictUpdate {V : Type} (d u : List (String × V)) : List (String × V) :=
  updateWith (fun _ new => new) d u

/-- The merge loop at lines 64-69 of planets-api.py: fetched bodies that
already exist in the stored catalog are merged field by field with
dict.update, fetched bodies with new identifiers are inserted, stored
bodies that were not fetched are kept. -/
def mergeCatalog {V : Type}
    (prev fetched : List (String × List (String × V))) :
    List (String × List (String × V)) :=
  updateWith (fun pb fb => dictUpdate pb fb) prev fetched

/-- The list of merged bodies, line 71 of planets-api.py
(bodies = list(bodies_prev.values())). -/
def mergedBodies {V : Type}
    (prev fetched : List (String × List (String × V))) :
    List (List (String × V)) :=
  (mergeCatalog prev fetched).map Prod.snd

/-- A warning event printed by the loop at lines 73-78 of
planets-api.py, carrying the value of the name field of the body. -/
inductive Warning (V : Type)
  | noColour (name : V)
  | noParent (name : V)

/-- Warnings printed for one body by the loop body at lines 74-78: one
when the body has a name but no colour field, one when it has a name but
no parent field, in that order. -/
def bodyWarnings {V : Type} (b : List (String × V)) : List (Warning V) :=
  (match b.lookup "colour", b.lookup "name" with
    | none, some n => [Warning.noColour n]
    | _, _ => []) ++
  (match b.lookup "parent", b.lookup "name" with
    | none, some n => [Warning.noParent n]
    | _, _ => [])

/-- All warnings printed by the loop at lines 73-78, in print order. -/
def catalogWarnings {V : Type} (bodies : List (List (String × V))) :
    List (Warning V) :=
  bodies.flatMap bodyWarnings

/- ### Lookup lemmas for the association-list dictionaries -/

/-- Looking up a key at the head of an association list. -/
lemma lookup_cons_self {V : Type} (k : String) (v : V)
    (l : List (String × V)) : ((k, v) :: l).lookup k = some v := by
  simp [List.lookup]

/-- Looking up a key past a head with a different key. -/
lemma lookup_cons_of_ne {V : Type} {k k' : String} (h : k ≠ k') (v : V)
    (l : List (String × V)) : ((k', v) :: l).lookup k = l.lookup k := by
  have hb : (k == k') = false := beq_eq_false_iff_ne.mpr h
  simp [List.lookup, hb]

/-- Lookup distributes over append, preferring the left list. -/
lemma lookup_append {V : Type} (l1 l2 : List (String × V)) (k : String) :
    (l1 ++ l2).lookup k =
      match l1.lookup k with
      | some v => some v
      | none => l2.lookup k := by
  induction l1 with
  | nil => simp [List.lookup]
  | cons hd tl ih =>
    obtain ⟨k', v⟩ := hd
    by_cases h : k = k'
    · subst h
      simp [lookup_cons_self]
    · simpa [lookup_cons_of_ne h] using ih

/-- Lookup in the mapped first block of updateWith. -/
lemma lookup_updateWith_map {V : Type} (c : V → V → V)
    (d u : List (String × V)) (k : String) :
    (d.map (fun kv =>
      match u.lookup kv.1 with
      | some v => (kv.1, c kv.2 v)
      | none => kv)).lookup k =
      match d.lookup k, u.lookup k with
      | some dv, some uv => some (c dv uv)
      | some dv, none => some dv
      | none, _ => none := by
  induction d with
  | nil => simp [List.lookup]
  | cons hd tl ih =>
    obtain ⟨k', v⟩ := hd
    by_cases h : k = k'
    · subst h
      cases hu : u.lookup k <;>
        simp [List.map_cons, hu, lookup_cons_self]
    · cases hu : u.lookup k' <;>
        simpa [List.map_cons, hu, lookup_cons_of_ne h] using ih

/-- Lookup in the filtered second block of updateWith, for keys absent
from the first dictionary. -/
lemma lookup_updateWith_filter {V : Type} (d u : List (String × V))
    (k : String) (hd : d.lookup k = none) :
    (u.filter (fun kv => (d.lookup kv.1).isNone)).lookup k = u.lookup k := by
  induction u with
  | nil => simp
  | cons hdu tl ih =>
    obtain ⟨k', v⟩ := hdu
    by_cases h : k = k'
    · subst h
      simp [List.filter_cons, hd, lookup_cons_self]
    · cases hdk : (d.lookup k').isNone <;>
        simp [List.filter_cons, hdk, lookup_cons_of_ne h, ih]

/-- Master lookup description of updateWith: keys in both dictionaries
give the combined value, keys only in the first keep their value, keys
only in the second are taken from the second. -/
lemma lookup_updateWith {V : Type} (c : V → V → V)
    (d u : List (String × V)) (k : String) :
    (updateWith c d u).lookup k =
      match d.lookup k, u.lookup k with
      | some dv, some uv => some (c dv uv)
      | some dv, none => some dv
      | none, r => r := by
  rw [updateWith, lookup_append, lookup_updateWith_map]
  cases hdk : d.lookup k with
  | some dv => cases hu : u.lookup k <;> simp
  | none =>
    simp only
    exact lookup_updateWith_filter d u k hdk

/-- A body with a name field but no colour field contributes a noColour
warning to its own warning list. -/
lemma noColour_mem_bodyWarnings {V : Type} (b : List (String × V)) (n : V)
    (hc : b.lookup "colour" = none) (hn : b.lookup "name" = some n) :
    Warning.noColour n ∈ bodyWarnings b := by
  simp [bodyWarnings, hc, hn]

/-- A body with a name field but no parent field contributes a noParent
warning to its own warning list. -/
lemma noParent_mem_bodyWarnings {V : Type} (b : List (String × V)) (n : V)
    (hp : b.lookup "parent" = none) (hn : b.lookup "name" = some n) :
    Warning.noParent n ∈ bodyWarnings b := by
  cases hc : b.lookup "colour" <;> simp [bodyWarnings, hc, hp, hn]

/-- Every warning of a listed body appears among the printed warnings. -/
lemma warning_mem_catalogWarnings {V : Type}
    (bodies : List (List (String × V))) (b : List (String × V))
    (wa : Warning V) (hb : b ∈ bodies) (hw : wa ∈ bodyWarnings b) :
    wa ∈ catalogWarnings bodies := by
  simp only [catalogWarnings, List.mem_flatMap]
  exact ⟨b, hb, hw⟩

/-- C10: in the catalog-ingestion script, merging lets every freshly
fetched field value overwrite the stored value for the same body, keeps
curated fields absent from the fetch (such as colour), merges a body
present in both catalogs with exactly the field-level dict update, and
after the merge the warning loop emits a missing-colour warning for
every named body without a colour field and a missing-parent warning for
every named body without a parent field. -/
theorem C10_catalog_merge_and_warnings {V : Type} :
    (∀ (prevB fetchB : List (String × V)) (f : String) (v : V),
        fetchB.lookup f = some v →
          (dictUpdate prevB fetchB).lookup f = some v) ∧
    (∀ (prevB fetchB : List (String × V)) (f : String),
        fetchB.lookup f = none →
          (dictUpdate prevB fetchB).lookup f = prevB.lookup f) ∧
    (∀ (prev fetched : List (String × List (String × V)))
        (k : String) (pb fb : List (String × V)),
        prev.lookup k = some pb → fetched.lookup k = some fb →
          (mergeCatalog prev fetched).lookup k =
            some (dictUpdate pb fb)) ∧
    (∀ (prev fetched : List (String × List (String × V)))
        (b : List (String × V)) (n : V),
        b ∈ mergedBodies prev fetched →
          b.lookup "colour" = none → b.lookup "name" = some n →
            Warning.noColour n ∈ catalogWarnings (mergedBodies prev fetched)) ∧
    (∀ (prev fetched : List (String × List (String × V)))
        (b : List (String × V)) (n : V),
        b ∈ mergedBodies prev fetched →
          b.lookup "parent" = none → b.lookup "name" = some n →
            Warning.noParent n ∈ catalogWarnings (mergedBodies prev fetched)) := by
  refine ⟨fun prevB fetchB f v hf => ?_, fun prevB fetchB f hf => ?_,
    fun prev fetched k pb fb hp hf => ?_,
    fun prev fetched b n hb hc hn =>
      warning_mem_catalogWarnings _ b _ hb (noColour_mem_bodyWarnings b n hc hn),
    fun prev fetched b n hb hp hn =>
      warning_mem_catalogWarnings _ b _ hb (noParent_mem_bodyWarnings b n hp hn)⟩
  · rw [dictUpdate, lookup_updateWith]
    cases hd : prevB.lookup f <;> simp [hf]
  · rw [dictUpdate, lookup_updateWith]
    cases hd : prevB.lookup f <;> simp [hf]
  · rw [mergeCatalog, lookup_updateWith, hp, hf]

/-- Witness for C10 on a concrete catalog: the fetched mass overwrites
the stored one, the curated colour survives, a body present in both
catalogs merges by field-level dict update, and a named merged body
without colour or parent fields produces both warnings. -/
theorem C10_witness :
    (dictUpdate [("colour", "red"), ("mass", "2")]
        [("mass", "9"), ("name", "Pluto")]).lookup "mass" = some "9" ∧
    (dictUpdate [("colour", "red"), ("mass", "2")]
        [("mass", "9"), ("name", "Pluto")]).lookup "colour" =
      ([("colour", "red"), ("mass", "2")] :
        List (String × String)).lookup "colour" ∧
    (mergeCatalog [("pluto", [("colour", "red")])]
        [("pluto", [("mass", "9")])]).lookup "pluto" =
      some (dictUpdate [("colour", "red")] [("mass", "9")]) ∧
    Warning.noColour "Pluto" ∈
      catalogWarnings (mergedBodies
        ([] : List (String × List (String × String)))
        [("x", [("name", "Pluto")])]) ∧
    Warning.noParent "Pluto" ∈
      catalogWarnings (mergedBodies
        ([] : List (String × List (String × String)))
        [("x", [("name", "Pluto")])]) :=
  ⟨C10_catalog_merge_and_warnings.1 _ _ "mass" "9" rfl,
    C10_catalog_merge_and_warnings.2.1 _ _ "colour" rfl,
    C10_catalog_merge_and_warnings.2.2.1 _ _ "pluto" _ _ rfl rfl,
    C10_catalog_merge_and_warnings.2.2.2.1 _ _ _ "Pluto"
      (List.mem_singleton_self _) rfl rfl,
    C10_catalog_merge_and_warnings.2.2.2.2 _ _ _ "Pluto"
      (List.mem_singleton_self _) rfl rfl⟩
